import Mathlib

/-!
Verification development for the Goodiebox Grok-3 BI service (src/app.py).

The program is a Flask app with two POST endpoints that forward prompts to an
external completion API.  We give a shallow embedding: the network is
abstracted by an oracle supplying the upstream response to each outbound call,
Python exceptions become `Except String` values carrying the exception message,
and Python `float` values are modelled exactly.

Modelling conventions, stated once here:
* Python decimal literals are given exact semantics (no binary rounding): a
  parsed number is an exact fraction `Frac` (integer numerator over a power of
  ten), interpreted in `ℚ` by `Frac.val`.  Non-finite parses (inf, -inf, nan)
  are modelled by dedicated `PyFloat` constructors, since the range check
  `1 <= x <= 5` in the source is what rejects them.  The spec (section 4.2)
  itself treats the arithmetic as exact decimal arithmetic, accepting either
  rounding convention at ties.
* `str.strip` is modelled over the ASCII whitespace characters; the inputs the
  claims quantify over contain no exotic Unicode whitespace.
* Python `float(...)` string grammar is modelled without the underscore
  digit-separator extension and without Unicode digits; no claim depends on
  those.
-/

namespace GrokBI

/-- Decidable equality of `Except` results, used to evaluate the embedding on
concrete inputs. -/
instance instDecEqExcept {ε α : Type} [DecidableEq ε] [DecidableEq α] :
    DecidableEq (Except ε α) := fun x y =>
  match x, y with
  | Except.ok a, Except.ok b =>
    if h : a = b then isTrue (by rw [h]) else isFalse (fun hc => h (Except.ok.inj hc))
  | Except.error a, Except.error b =>
    if h : a = b then isTrue (by rw [h]) else isFalse (fun hc => h (Except.error.inj hc))
  | Except.ok _, Except.error _ => isFalse (fun hc => Except.noConfusion hc)
  | Except.error _, Except.ok _ => isFalse (fun hc => Except.noConfusion hc)

/-- An exact, not necessarily reduced fraction: `num / den`.  Every fraction
the program builds has a positive denominator (a power of ten, or products of
such with a list length). -/
structure Frac where
  num : ℤ
  den : ℕ
deriving DecidableEq

/-- The rational value of a fraction. -/
def Frac.val (f : Frac) : ℚ := (f.num : ℚ) / (f.den : ℚ)

/-- Comparison `a ≤ b` of fractions by cross-multiplication; agrees with the
value order when both denominators are positive. -/
def Frac.leF (a b : Frac) : Prop := a.num * (b.den : ℤ) ≤ b.num * (a.den : ℤ)

instance (a b : Frac) : Decidable (Frac.leF a b) := by
  unfold Frac.leF; infer_instance

/-- Python float addition on exact fractions (no rounding). -/
def Frac.add (a b : Frac) : Frac :=
  ⟨a.num * (b.den : ℤ) + b.num * (a.den : ℤ), a.den * b.den⟩

/-- Division of a fraction by a natural number. -/
def Frac.divN (a : Frac) (n : ℕ) : Frac := ⟨a.num, a.den * n⟩

/-- A Python float value as far as this program can observe it: an exact
fraction, or one of the non-finite values that `float("inf")`, `float("-inf")`,
`float("nan")` produce.  The chained comparison `1 <= x <= 5` at app.py:78 is
false for all three non-finite values (for `nan` both comparisons are false). -/
inductive PyFloat where
  | finite (f : Frac)
  | inf
  | ninf
  | nan
deriving DecidableEq

/-- ASCII whitespace stripped by Python `str.strip()`:
space, tab, newline, carriage return, vertical tab, form feed. -/
def pyWhitespace (c : Char) : Bool :=
  c = ' ' || c = '\t' || c = '\n' || c = '\r' || c = Char.ofNat 11 || c = Char.ofNat 12

/-- Python `s.strip()` (ASCII fragment): drop leading and trailing whitespace. -/
def pyStrip (s : String) : String :=
  String.mk (((s.data.dropWhile pyWhitespace).reverse.dropWhile pyWhitespace).reverse)

/-- Python slice `s[:n]` on a string (by code points). -/
def pyTake (n : ℕ) (s : String) : String :=
  String.mk (s.data.take n)

/-- The characters preceding the first occurrence of (non-empty) `sep`; this is
Python `s.split(sep)[0]`. -/
def takeBeforeSep (sep : List Char) : List Char → List Char
  | [] => []
  | c :: rest => if sep.isPrefixOf (c :: rest) then [] else c :: takeBeforeSep sep rest

/-- Value of a list of ASCII digits read in base 10. -/
def digitsVal (ds : List Char) : ℕ :=
  ds.foldl (fun a c => 10 * a + (c.toNat - 48)) 0

/-- Exact value of a decimal literal: sign, integer-part digits, fraction-part
digits and a base-10 exponent, as a fraction over a power of ten. -/
def decToFrac (neg : Bool) (ip fp : List Char) (e : ℤ) : Frac :=
  let m : ℤ := (digitsVal (ip ++ fp) : ℕ)
  let mz : ℤ := if neg then -m else m
  match e - (fp.length : ℤ) with
  | Int.ofNat k => ⟨mz * ((10 ^ k : ℕ) : ℤ), 1⟩
  | Int.negSucc k => ⟨mz, 10 ^ (k + 1)⟩

/-- Parse the digits/point/exponent part of a Python float literal (sign
already consumed).  Returns `none` exactly when Python `float` raises
`ValueError` on such input. -/
def parseDecimalBody (neg : Bool) (cs : List Char) : Option PyFloat :=
  let ip := cs.takeWhile Char.isDigit
  let rest1 := cs.dropWhile Char.isDigit
  let fp := match rest1 with
    | '.' :: r => r.takeWhile Char.isDigit
    | _ => []
  let rest2 := match rest1 with
    | '.' :: r => r.dropWhile Char.isDigit
    | r => r
  if ip = [] ∧ fp = [] then none
  else
    match rest2 with
    | [] => some (PyFloat.finite (decToFrac neg ip fp 0))
    | e :: r =>
      if e = 'e' ∨ e = 'E' then
        let eneg := match r with
          | '-' :: _ => true
          | _ => false
        let r1 := match r with
          | '+' :: rr => rr
          | '-' :: rr => rr
          | rr => rr
        let eds := r1.takeWhile Char.isDigit
        if eds = [] ∨ r1.dropWhile Char.isDigit ≠ [] then none
        else
          some (PyFloat.finite (decToFrac neg ip fp
            (if eneg then -(digitsVal eds : ℤ) else (digitsVal eds : ℤ))))
      else none

/-- Python `float(s)` on a string: strip whitespace, optional sign, then either
a case-insensitive special word (inf, infinity, nan) or a decimal literal.
`none` models `float` raising `ValueError`. -/
def pyFloatParse (s : String) : Option PyFloat :=
  match (pyStrip s).data with
  | [] => none
  | cs =>
    let neg := match cs with
      | '-' :: _ => true
      | _ => false
    let cs1 := match cs with
      | '+' :: r => r
      | '-' :: r => r
      | r => r
    let low := cs1.map Char.toLower
    if low = ['i', 'n', 'f'] ∨ low = ['i', 'n', 'f', 'i', 'n', 'i', 't', 'y'] then
      some (if neg then PyFloat.ninf else PyFloat.inf)
    else if low = ['n', 'a', 'n'] then
      some PyFloat.nan
    else
      parseDecimalBody neg cs1

/-- One upstream completion call as seen from this program: either the
transport layer raised (connection error or `raise_for_status` on a non-2xx
reply, app.py:34-35), carrying the exception text, or a reply was decoded and
`choices[0].text` (default empty string) was extracted (app.py:36-37). -/
inductive Upstream where
  | transportError (detail : String)
  | text (t : String)
deriving DecidableEq

/-- The JSON payload `call_grok3` posts to the API (app.py:27-33). -/
structure CompletionPayload where
  model : String
  prompt : String
  temperature : ℚ
  max_tokens : ℕ
  seed : ℕ
deriving DecidableEq

/-- The payload built by `call_grok3` for a given prompt and the
caller-supplied token budget and temperature: model grok-3, seed 42. -/
def grokPayload (prompt : String) (max_tokens : ℕ) (temperature : ℚ) : CompletionPayload :=
  { model := "grok-3", prompt := prompt, temperature := temperature
    max_tokens := max_tokens, seed := 42 }

/-- Response cleanup in `call_grok3` (app.py:37-40): strip the raw text, keep
only what precedes the first occurrence of the separator marker, strip again. -/
def cleanResponse (t : String) : String :=
  let response_text := pyStrip t
  pyStrip (String.mk (takeBeforeSep "<|separator|>".data response_text.data))

/-- The body of `call_grok3` (app.py:20-49) applied to one upstream outcome.
A transport exception `e` is re-raised by the catch-all handler as an
`Exception` with message `Error calling Grok 3: ` followed by `str(e)`
(app.py:47-49); an empty cleaned text raises
`ValueError("Grok 3 returned an empty response")` (app.py:41-43), which the
same handler wraps.  On success the cleaned text is returned. -/
def call_grok3 (u : Upstream) : Except String String :=
  match u with
  | Upstream.transportError d => Except.error ("Error calling Grok 3: " ++ d)
  | Upstream.text t =>
    let cleaned_text := cleanResponse t
    if cleaned_text = "" then
      Except.error ("Error calling Grok 3: Grok 3 returned an empty response")
    else
      Except.ok cleaned_text

/-- The score-prompt template (app.py:54-71) up to the spliced
`historical_data`. -/
def boxPromptA : String := "
        You are a Goodiebox satisfaction expert simulating a member satisfaction score for a future subscription box. Use this data context:
        **Data Explanation**:
        - Historical Data: Past boxes with details like:
          - Box SKU: Unique box identifier (e.g., DK-2504-CLA-2L).
          - Products: Number of items, listed as Product SKUs.
          - Total Retail Value: Sum of product retail prices in €.
          - Unique Categories: Number of distinct product categories (e.g., skincare, makeup).
          - Full-size/Premium: Counts of full-size items and those > €20.
          - Total Weight: Sum of product weights in grams.
          - Avg Brand/Category Ratings: Average ratings (out of 5).
          - Historical Score: Past average box rating (out of 5, e.g., 4.23).
        - Future Box Info: Details of a new box (same format, no historical score yet).
        **Inputs**:
        Historical Data: "

/-- The score-prompt template between `historical_data` and
`future_box_info`. -/
def boxPromptB : String := "
        Future Box Info: "

/-- The score-prompt template after `future_box_info`. -/
def boxPromptC : String := "
        Simulate the score by analyzing trends in past member reactions, product variety, retail value, brand reputation, category ratings, and surprise value. Return a satisfaction score on a 1-5 scale, with exactly two decimal places (e.g., 4.23). Return only the numerical score (e.g., 4.23).
        "

/-- The prompt built by `predict_box_score` (app.py:54-71): the f-string has
exactly two replacement fields, splicing the two inputs verbatim. -/
def boxPrompt (historical_data future_box_info : String) : String :=
  boxPromptA ++ historical_data ++ boxPromptB ++ future_box_info ++ boxPromptC

/-- The per-sample body of the averaging loop (app.py:76-83): `float(...)` on
the cleaned text, then the chained range check `1 <= score_float <= 5`.
Returns the collected score, or `none` when the inner `try` raises
`ValueError` (unparseable text, line 77, or `Score out of range`, line 79;
non-finite parses fail the chained comparison and take the same path). -/
def sampleOk (score_text : String) : Option Frac :=
  match pyFloatParse score_text with
  | some (PyFloat.finite f) =>
    if Frac.leF ⟨1, 1⟩ f ∧ Frac.leF f ⟨5, 1⟩ then some f else none
  | _ => none

/-- Python `sum(scores)` over the collected samples, in exact arithmetic. -/
def fracSum : List Frac → Frac
  | [] => ⟨0, 1⟩
  | f :: rest => Frac.add f (fracSum rest)

/-- Round a fraction (assumed positive denominator) to the nearest integer,
ties to even: the rounding CPython `format(x, ".2f")` performs, applied after
scaling by 100.  The source value is exact here, so ties go to even exactly as
in the spec option `round-half-to-even` (section 4.2). -/
def rheFrac (f : Frac) : ℤ :=
  let fl := Int.fdiv f.num f.den
  let r := f.num - fl * (f.den : ℤ)
  if 2 * r < (f.den : ℤ) then fl
  else if (f.den : ℤ) < 2 * r then fl + 1
  else if fl % 2 = 0 then fl else fl + 1

/-- Two-digit zero-padded rendering of a remainder below 100. -/
def pad2 (n : ℕ) : String := if n < 10 then "0" ++ toString n else toString n

/-- Python `f-string` formatting `.2f` of the averaged score (app.py:90),
on the exact fraction: round value*100 half-to-even to an integer, then render
with two decimal digits. -/
def formatScore (f : Frac) : String :=
  let n := rheFrac ⟨f.num * 100, f.den⟩
  if n < 0 then "-" ++ toString (n.natAbs / 100) ++ "." ++ pad2 (n.natAbs % 100)
  else toString (n.natAbs / 100) ++ "." ++ pad2 (n.natAbs % 100)

/-- Trace of one run of the averaging loop: the payloads of the completion
calls actually issued, in order, and the outcome (collected samples, or the
message of the first exception). -/
structure LoopRun where
  requests : List CompletionPayload
  result : Except String (List Frac)

/-- The `for _ in range(5)` loop of `predict_box_score` (app.py:73-83) over an
explicit list of upstream responses, carrying the accumulated `scores`.  Each
iteration issues one call with a 50-token budget and temperature 0
(app.py:75); an error from `call_grok3` is not a `ValueError`, so it skips the
inner handler and aborts the loop, and an invalid sample raises
`ValueError` with message `Invalid score format: ` followed by the text
(app.py:83), likewise aborting. -/
def scoreLoop (prompt : String) : List Upstream → List Frac → LoopRun
  | [], scores => ⟨[], Except.ok scores⟩
  | u :: rest, scores =>
    match call_grok3 u with
    | Except.error e => ⟨[grokPayload prompt 50 0], Except.error e⟩
    | Except.ok score_text =>
      match sampleOk score_text with
      | some q =>
        let r := scoreLoop prompt rest (scores ++ [q])
        ⟨grokPayload prompt 50 0 :: r.requests, r.result⟩
      | none => ⟨[grokPayload prompt 50 0], Except.error ("Invalid score format: " ++ score_text)⟩

/-- The five upstream responses the loop can consume, in call order: the
network is abstracted by an oracle from call index to response. -/
def upstreamCalls (oracle : ℕ → Upstream) : List Upstream :=
  [oracle 0, oracle 1, oracle 2, oracle 3, oracle 4]

/-- The full run (trace and outcome) of `predict_box_score` for given inputs
and oracle. -/
def predictRun (oracle : ℕ → Upstream) (historical_data future_box_info : String) : LoopRun :=
  scoreLoop (boxPrompt historical_data future_box_info) (upstreamCalls oracle) []

/-- `predict_box_score(historical_data, future_box_info)` (app.py:51-95).
Any exception from the loop is re-raised by the outer handler with the prefix
`Error in box score simulation: ` (app.py:93-95); the defensive
`if not scores` branch (app.py:85-87) raises `No valid scores collected`;
otherwise the mean of the samples is formatted to two decimals (app.py:89-90).
-/
def predict_box_score (oracle : ℕ → Upstream) (historical_data future_box_info : String) :
    Except String String :=
  match (predictRun oracle historical_data future_box_info).result with
  | Except.error e => Except.error ("Error in box score simulation: " ++ e)
  | Except.ok scores =>
    if scores.isEmpty then
      Except.error ("Error in box score simulation: No valid scores collected")
    else
      Except.ok (formatScore ((fracSum scores).divN scores.length))

example : call_grok3 (Upstream.text "  4.20 <|separator|> junk") = Except.ok "4.20" := by decide
example : call_grok3 (Upstream.text " <|separator|> junk") =
    Except.error ("Error calling Grok 3: Grok 3 returned an empty response") := by decide
example : pyFloatParse "4.20" = some (PyFloat.finite ⟨420, 100⟩) := by decide
example : pyFloatParse "-inf" = some PyFloat.ninf := by decide
example : pyFloatParse "N/A" = none := by decide
example : pyFloatParse "1e2" = some (PyFloat.finite ⟨100, 1⟩) := by decide
example : pyFloatParse " -4.5e-1 " = some (PyFloat.finite ⟨-45, 100⟩) := by decide
example : pyFloatParse "1." = some (PyFloat.finite ⟨1, 1⟩) := by decide
example : pyFloatParse ".5" = some (PyFloat.finite ⟨5, 10⟩) := by decide
example : pyFloatParse "." = none := by decide
example : pyFloatParse "1.2.3" = none := by decide
example : pyFloatParse "Infinity" = some PyFloat.inf := by decide
example : pyFloatParse "nan" = some PyFloat.nan := by decide

example : predict_box_score (fun _ => Upstream.text "4.20") "h" "f" = Except.ok "4.20" := by decide
example :
    predict_box_score (fun i => Upstream.text (["4.1", "4.2", "4.0", "4.3", "4.4"].getD i "")) "h" "f" =
      Except.ok "4.20" := by decide
example : predict_box_score (fun _ => Upstream.text "N/A") "h" "f" =
    Except.error ("Error in box score simulation: Invalid score format: N/A") := by decide
example : predict_box_score (fun _ => Upstream.text "5.50") "h" "f" =
    Except.error ("Error in box score simulation: Invalid score format: 5.50") := by decide

/-- An apostrophe character, as used by CPython error messages. -/
def squote : String := String.singleton (Char.ofNat 39)

/-- Modelled from CPython string formatting: `str.__format__` accepts the
empty format specifier (returning the string unchanged).  Of the format
mini-language, only what this program can reach is modelled: the sole
non-empty specifier ever evaluated here is ` value, ...` (from the broken
replacement field at app.py:115), which the mini-language rejects, raising
`ValueError` with the CPython 3.11/3.12 message naming the specifier and the
type. -/
def strFormat (s spec : String) : Except String String :=
  if spec = "" then Except.ok s
  else Except.error ("Invalid format specifier " ++ squote ++ spec ++ squote ++
    " for object of type " ++ squote ++ "str" ++ squote)

/-- The analysis-prompt template (app.py:100-119) up to the spliced
`data_context[:1000]`. -/
def biPromptA : String := "
        You are a BI expert for Goodiebox, a Danish subscription business selling beauty product boxes across 10+ European markets. Analyze the provided data to answer the query. Use clear, concise language suitable for business stakeholders. Return numerical results (if applicable) and a brief explanation.

        **Data Context**:
        - Data Source: Pirate Funnel data (daily metrics per market).
        - Metrics: Intake (new members, reactivations), CAC (cost per acquisition, €), ad spend (€), sales (daily actuals).
        - Markets: Denmark, Germany, Sweden, Norway, Poland, Finland, Netherlands, Belgium, Switzerland, Austria.
        - Time Period: January to June 2025.
        - Example Data: "

/-- The analysis-prompt template between `data_context[:1000]` and `query`. -/
def biPromptB : String := "... (truncated for brevity; use trends and patterns).
        - Notes: Belgium price change on March 10, 2025 (base price from €12.48 to €11.98, delivery from €0 to €1.99).

        **Query**:
        "

/-- The analysis-prompt template between `query` and the broken replacement
field of app.py:115. -/
def biPromptC : String := "

        **Instructions**:
        - For numerical results (e.g., averages, deltas), return in a JSON-like format: "

/-- The analysis-prompt template after the broken replacement field. -/
def biPromptD : String := ".
        - Provide a concise explanation (2-3 sentences) of the results or trends.
        - If the query is open-ended, focus on key drivers (e.g., price perception, ad spend, market dynamics).
        - If data is insufficient, note limitations and provide a reasonable estimate or suggestion.
        "

/-- Building the analysis prompt (app.py:100-119).  The f-string text at
app.py:115 that was meant to be a literal JSON example is, in an f-string, a
replacement field: expression `"results"` with a format specifier that
itself contains the nested field with expression `"metric"` and specifier
` value, ...`.  CPython evaluates the fields in textual order -- the
`data_context[:1000]` and `query` splices succeed -- and then formatting
`"metric"` with the invalid specifier raises `ValueError`, so the prompt is
never produced. -/
def biPrompt (data_context query : String) : Except String String := do
  let ctx := pyTake 1000 data_context
  let inner ← strFormat "metric" (" value, ...")
  let outer ← strFormat "results" (" " ++ inner)
  pure (biPromptA ++ ctx ++ biPromptB ++ query ++ biPromptC ++ outer ++ biPromptD)

/-- The `ValueError` message the broken field raises. -/
def biFstringError : String :=
  "Invalid format specifier " ++ squote ++ " value, ..." ++ squote ++
    " for object of type " ++ squote ++ "str" ++ squote

/-- `analyze_bi(data_context, query)` (app.py:97-125): build the prompt, call
the client once with a 1000-token budget and temperature 0.7, return the
cleaned text.  The catch-all handler (app.py:123-125) re-raises any exception
with prefix `Error in BI analysis: ` -- including the `ValueError` raised
while building the prompt itself. -/
def analyze_bi (u : Upstream) (data_context query : String) : Except String String :=
  match biPrompt data_context query with
  | Except.error e => Except.error ("Error in BI analysis: " ++ e)
  | Except.ok _prompt =>
    match call_grok3 u with
    | Except.error e => Except.error ("Error in BI analysis: " ++ e)
    | Except.ok response_text => Except.ok response_text

/-- A parsed request body as the handlers see it after `request.get_json()`:
`null` for an absent/null JSON payload (Python `None`), or a JSON object,
modelled as key/value pairs with string values (the only shape the handlers
read; duplicate keys are outside the modelled shape). -/
inductive JsonBody where
  | null
  | obj (kv : List (String × String))
deriving DecidableEq

/-- An HTTP response: status code and the JSON object `jsonify` renders. -/
structure HttpResponse where
  status : ℕ
  body : List (String × String)
deriving DecidableEq

/-- The `/predict_box_score` endpoint handler (app.py:127-141).  `not data`
holds for the null body and for the empty object; `'future_box_info' not in
data` is the key lookup; `data.get('historical_data', ...)` defaults to the
literal placeholder.  Exceptions from the core become a 500 response carrying
`str(e)` (app.py:139-141). -/
def box_score (oracle : ℕ → Upstream) (body : JsonBody) : HttpResponse :=
  match body with
  | JsonBody.null => ⟨400, [("error", "Missing future box info")]⟩
  | JsonBody.obj kv =>
    if kv = [] then ⟨400, [("error", "Missing future box info")]⟩
    else
      match kv.lookup "future_box_info" with
      | none => ⟨400, [("error", "Missing future box info")]⟩
      | some future_box_info =>
        let historical_data := (kv.lookup "historical_data").getD "No historical data provided"
        match predict_box_score oracle historical_data future_box_info with
        | Except.ok score => ⟨200, [("predicted_box_score", score)]⟩
        | Except.error e => ⟨500, [("error", e)]⟩

/-- The `/analyze_bi` endpoint handler (app.py:143-157), analogous to
`box_score`: 400 on a falsy body or missing `query`, default placeholder for
`data_context`, 500 with `str(e)` on any exception. -/
def bi_analysis (u : Upstream) (body : JsonBody) : HttpResponse :=
  match body with
  | JsonBody.null => ⟨400, [("error", "Missing query")]⟩
  | JsonBody.obj kv =>
    if kv = [] then ⟨400, [("error", "Missing query")]⟩
    else
      match kv.lookup "query" with
      | none => ⟨400, [("error", "Missing query")]⟩
      | some query =>
        let data_context := (kv.lookup "data_context").getD "No data context provided"
        match analyze_bi u data_context query with
        | Except.ok analysis => ⟨200, [("analysis", analysis)]⟩
        | Except.error e => ⟨500, [("error", e)]⟩

/-- The `/health` endpoint handler (app.py:159-162). -/
def health_check : HttpResponse := ⟨200, [("status", "healthy")]⟩

example : bi_analysis (Upstream.text "fine") (JsonBody.obj [("query", "Q")]) =
    ⟨500, [("error", "Error in BI analysis: " ++ biFstringError)]⟩ := by decide

/-! Rational-valued restatements of the executable arithmetic, and the bridge
lemmas connecting them.  These let the claims be phrased over `ℚ` while the
program computes on `Frac`. -/

/-- Round a rational to the nearest integer, ties to even. -/
def roundHalfEven (q : ℚ) : ℤ :=
  let fl := ⌊q⌋
  if q - fl < 1 / 2 then fl
  else if (1 : ℚ) / 2 < q - fl then fl + 1
  else if fl % 2 = 0 then fl else fl + 1

/-- Formatting `.2f` of a rational value: round value*100 half-to-even, render
with two decimal digits. -/
def ratFormat2 (q : ℚ) : String :=
  let n := roundHalfEven (q * 100)
  if n < 0 then "-" ++ toString (n.natAbs / 100) ++ "." ++ pad2 (n.natAbs % 100)
  else toString (n.natAbs / 100) ++ "." ++ pad2 (n.natAbs % 100)

theorem fdiv_eq_floor (n : ℤ) (d : ℕ) : Int.fdiv n d = ⌊((n : ℚ) / (d : ℚ))⌋ := by
  rw [Rat.floor_intCast_div_natCast, Int.fdiv_eq_ediv _ (by positivity)]

theorem rheFrac_eq_roundHalfEven (f : Frac) (hd : 0 < f.den) :
    rheFrac f = roundHalfEven f.val := by
  have hdQ : (0 : ℚ) < (f.den : ℚ) := by exact_mod_cast hd
  have hfl : Int.fdiv f.num f.den = ⌊f.val⌋ := fdiv_eq_floor f.num f.den
  have hsub : f.val - (⌊f.val⌋ : ℚ) =
      ((f.num - ⌊f.val⌋ * (f.den : ℤ) : ℤ) : ℚ) / (f.den : ℚ) := by
    push_cast
    rw [Frac.val]
    field_simp
    ring
  have hlt : (f.val - (⌊f.val⌋ : ℚ) < 1 / 2) ↔
      (2 * (f.num - ⌊f.val⌋ * (f.den : ℤ)) < (f.den : ℤ)) := by
    rw [hsub, div_lt_div_iff₀ hdQ (by norm_num : (0 : ℚ) < 2)]
    qify
    constructor <;> intro h <;> linarith
  have hgt : ((1 : ℚ) / 2 < f.val - (⌊f.val⌋ : ℚ)) ↔
      ((f.den : ℤ) < 2 * (f.num - ⌊f.val⌋ * (f.den : ℤ))) := by
    rw [hsub, div_lt_div_iff₀ (by norm_num : (0 : ℚ) < 2) hdQ]
    qify
    constructor <;> intro h <;> linarith
  simp only [rheFrac, roundHalfEven, hfl, hlt, hgt]

theorem frac_scale100_val (f : Frac) : (Frac.mk (f.num * 100) f.den).val = f.val * 100 := by
  unfold Frac.val
  push_cast
  ring

theorem formatScore_eq_ratFormat2 (f : Frac) (hd : 0 < f.den) :
    formatScore f = ratFormat2 f.val := by
  unfold formatScore ratFormat2
  rw [show rheFrac ⟨f.num * 100, f.den⟩ = roundHalfEven ((Frac.mk (f.num * 100) f.den).val) from
    rheFrac_eq_roundHalfEven _ hd]
  rw [frac_scale100_val]

theorem Frac.leF_iff (a b : Frac) (ha : 0 < a.den) (hb : 0 < b.den) :
    a.leF b ↔ a.val ≤ b.val := by
  have haQ : (0 : ℚ) < (a.den : ℚ) := by exact_mod_cast ha
  have hbQ : (0 : ℚ) < (b.den : ℚ) := by exact_mod_cast hb
  rw [Frac.leF, Frac.val, Frac.val, div_le_div_iff₀ haQ hbQ]
  qify

theorem Frac.add_den_pos {a b : Frac} (ha : 0 < a.den) (hb : 0 < b.den) :
    0 < (a.add b).den := Nat.mul_pos ha hb

theorem Frac.add_val {a b : Frac} (ha : 0 < a.den) (hb : 0 < b.den) :
    (a.add b).val = a.val + b.val := by
  have haQ : (a.den : ℚ) ≠ 0 := by positivity
  have hbQ : (b.den : ℚ) ≠ 0 := by positivity
  rw [Frac.add, Frac.val, Frac.val, Frac.val]
  push_cast
  field_simp

theorem Frac.divN_val (a : Frac) (n : ℕ) : (a.divN n).val = a.val / (n : ℚ) := by
  rw [Frac.divN, Frac.val, Frac.val]
  push_cast
  rw [div_div]

theorem fracSum_den_pos (l : List Frac) (h : ∀ f ∈ l, 0 < f.den) :
    0 < (fracSum l).den := by
  induction l with
  | nil => simp [fracSum]
  | cons f rest ih =>
    exact Frac.add_den_pos (h f (List.mem_cons_self f rest))
      (ih fun g hg => h g (List.mem_cons_of_mem f hg))

theorem fracSum_val (l : List Frac) (h : ∀ f ∈ l, 0 < f.den) :
    (fracSum l).val = (l.map Frac.val).sum := by
  induction l with
  | nil => simp [fracSum, Frac.val]
  | cons f rest ih =>
    rw [fracSum, Frac.add_val (h f (List.mem_cons_self f rest))
      (fracSum_den_pos rest fun g hg => h g (List.mem_cons_of_mem f hg)),
      ih fun g hg => h g (List.mem_cons_of_mem f hg)]
    simp

theorem decToFrac_den_pos (neg : Bool) (ip fp : List Char) (e : ℤ) :
    0 < (decToFrac neg ip fp e).den := by
  unfold decToFrac
  cases hk : e - (fp.length : ℤ) with
  | ofNat k => simp
  | negSucc k => positivity

theorem parseDecimalBody_den_pos {neg : Bool} {cs : List Char} {f : Frac}
    (h : parseDecimalBody neg cs = some (PyFloat.finite f)) : 0 < f.den := by
  simp only [parseDecimalBody] at h
  split at h
  · exact absurd h (by simp)
  · split at h
    · simp only [Option.some.injEq, PyFloat.finite.injEq] at h
      subst h
      exact decToFrac_den_pos _ _ _ _
    · split at h
      · split at h
        · exact absurd h (by simp)
        · simp only [Option.some.injEq, PyFloat.finite.injEq] at h
          subst h
          exact decToFrac_den_pos _ _ _ _
      · exact absurd h (by simp)

theorem pyFloatParse_den_pos {s : String} {f : Frac}
    (h : pyFloatParse s = some (PyFloat.finite f)) : 0 < f.den := by
  unfold pyFloatParse at h
  cases hd : (pyStrip s).data with
  | nil => rw [hd] at h; exact absurd h (by simp)
  | cons c cs =>
    rw [hd] at h
    simp only at h
    split at h
    · split at h <;> exact absurd h (by simp)
    · split at h
      · exact absurd h (by simp)
      · exact parseDecimalBody_den_pos h


theorem sampleOk_eq_some_iff (t : String) (f : Frac) :
    sampleOk t = some f ↔
      pyFloatParse t = some (PyFloat.finite f) ∧
        Frac.leF ⟨1, 1⟩ f ∧ Frac.leF f ⟨5, 1⟩ := by
  unfold sampleOk
  cases hp : pyFloatParse t with
  | none => simp
  | some pf =>
    cases pf with
    | finite g =>
      simp only [Option.some.injEq, PyFloat.finite.injEq]
      by_cases hr : Frac.leF ⟨1, 1⟩ g ∧ Frac.leF g ⟨5, 1⟩
      · rw [if_pos hr]
        constructor
        · intro hgf
          injection hgf with hgf
          subst hgf
          exact ⟨rfl, hr⟩
        · rintro ⟨rfl, _⟩
          rfl
      · rw [if_neg hr]
        constructor
        · intro hgf
          exact absurd hgf (by simp)
        · rintro ⟨rfl, hc⟩
          exact absurd hc hr
    | inf => simp
    | ninf => simp
    | nan => simp

theorem sampleOk_den_pos {t : String} {f : Frac} (h : sampleOk t = some f) :
    0 < f.den :=
  pyFloatParse_den_pos ((sampleOk_eq_some_iff t f).mp h).1

theorem sampleOk_range {t : String} {f : Frac} (h : sampleOk t = some f) :
    1 ≤ f.val ∧ f.val ≤ 5 := by
  have hd := sampleOk_den_pos h
  obtain ⟨-, hr1, hr5⟩ := (sampleOk_eq_some_iff t f).mp h
  have h1 := (Frac.leF_iff ⟨1, 1⟩ f (by norm_num) hd).mp hr1
  have h5 := (Frac.leF_iff f ⟨5, 1⟩ hd (by norm_num)).mp hr5
  simp only [Frac.val] at h1 h5
  norm_num at h1 h5
  exact ⟨h1, h5⟩

theorem sampleOk_of_val {t : String} {f : Frac}
    (hp : pyFloatParse t = some (PyFloat.finite f))
    (h1 : 1 ≤ f.val) (h5 : f.val ≤ 5) : sampleOk t = some f := by
  have hd := pyFloatParse_den_pos hp
  refine (sampleOk_eq_some_iff t f).mpr ⟨hp, ?_, ?_⟩
  · rw [Frac.leF_iff ⟨1, 1⟩ f (by norm_num) hd]
    simp only [Frac.val]
    norm_num
    exact h1
  · rw [Frac.leF_iff f ⟨5, 1⟩ hd (by norm_num)]
    simp only [Frac.val]
    norm_num
    exact h5

theorem scoreLoop_ok_length (p : String) (us : List Upstream) (sc l : List Frac)
    (h : (scoreLoop p us sc).result = Except.ok l) :
    l.length = sc.length + us.length := by
  induction us generalizing sc with
  | nil =>
    simp only [scoreLoop, Except.ok.injEq] at h
    subst h
    simp
  | cons u rest ih =>
    rw [scoreLoop] at h
    cases hcall : call_grok3 u with
    | error e => simp only [hcall] at h; exact absurd h (by simp)
    | ok t =>
      simp only [hcall] at h
      cases hs : sampleOk t with
      | none => simp only [hs] at h; exact absurd h (by simp)
      | some q =>
        simp only [hs] at h
        have := ih (sc ++ [q]) h
        simp only [List.length_append, List.length_cons, List.length_nil] at this ⊢
        omega

theorem scoreLoop_ok_good (p : String) (us : List Upstream) (sc l : List Frac)
    (hsc : ∀ f ∈ sc, 0 < f.den ∧ 1 ≤ f.val ∧ f.val ≤ 5)
    (h : (scoreLoop p us sc).result = Except.ok l) :
    ∀ f ∈ l, 0 < f.den ∧ 1 ≤ f.val ∧ f.val ≤ 5 := by
  induction us generalizing sc with
  | nil =>
    simp only [scoreLoop, Except.ok.injEq] at h
    subst h
    exact hsc
  | cons u rest ih =>
    rw [scoreLoop] at h
    cases hcall : call_grok3 u with
    | error e => simp only [hcall] at h; exact absurd h (by simp)
    | ok t =>
      simp only [hcall] at h
      cases hs : sampleOk t with
      | none => simp only [hs] at h; exact absurd h (by simp)
      | some q =>
        simp only [hs] at h
        refine ih (sc ++ [q]) ?_ h
        intro g hg
        rcases List.mem_append.mp hg with hg | hg
        · exact hsc g hg
        · rcases List.mem_singleton.mp hg with rfl
          exact ⟨sampleOk_den_pos hs, sampleOk_range hs⟩

theorem call_grok3_error_shape {u : Upstream} {e : String}
    (h : call_grok3 u = Except.error e) :
    ∃ d, e = "Error calling Grok 3: " ++ d := by
  cases u with
  | transportError d =>
    simp only [call_grok3, Except.error.injEq] at h
    exact ⟨d, h.symm⟩
  | text t =>
    simp only [call_grok3] at h
    split at h
    · simp only [Except.error.injEq] at h
      exact ⟨"Grok 3 returned an empty response", h.symm.trans (by decide)⟩
    · exact absurd h (by simp)

theorem scoreLoop_error_shape (p : String) (us : List Upstream) (sc : List Frac) (e : String)
    (h : (scoreLoop p us sc).result = Except.error e) :
    (∃ d, e = "Error calling Grok 3: " ++ d) ∨ (∃ t, e = "Invalid score format: " ++ t) := by
  induction us generalizing sc with
  | nil => exact absurd h (by simp [scoreLoop])
  | cons u rest ih =>
    rw [scoreLoop] at h
    cases hcall : call_grok3 u with
    | error e2 =>
      simp only [hcall, Except.error.injEq] at h
      subst h
      exact Or.inl (call_grok3_error_shape hcall)
    | ok t =>
      simp only [hcall] at h
      cases hs : sampleOk t with
      | none =>
        simp only [hs, Except.error.injEq] at h
        exact Or.inr ⟨t, h.symm⟩
      | some q =>
        simp only [hs] at h
        exact ih (sc ++ [q]) h

theorem string_data_append (a b : String) : (a ++ b).data = a.data ++ b.data := by
  cases a with
  | mk as => cases b with
    | mk bs => rfl

theorem grokPrefix_append_ne (d : String) :
    "Error calling Grok 3: " ++ d ≠ "No valid scores collected" := by
  intro hc
  have h2 := congrArg String.data hc
  rw [string_data_append] at h2
  rw [show ("Error calling Grok 3: ").data = 'E' :: ("rror calling Grok 3: ").data from rfl,
    show ("No valid scores collected").data = 'N' :: ("o valid scores collected").data from rfl,
    List.cons_append] at h2
  injection h2 with h3 _
  exact absurd h3 (by decide)

theorem invalidPrefix_append_ne (t : String) :
    "Invalid score format: " ++ t ≠ "No valid scores collected" := by
  intro hc
  have h2 := congrArg String.data hc
  rw [string_data_append] at h2
  rw [show ("Invalid score format: ").data = 'I' :: ("nvalid score format: ").data from rfl,
    show ("No valid scores collected").data = 'N' :: ("o valid scores collected").data from rfl,
    List.cons_append] at h2
  injection h2 with h3 _
  exact absurd h3 (by decide)

theorem wrapped_msg_inj (e e2 : String) :
    ("Error in box score simulation: " ++ e = "Error in box score simulation: " ++ e2) ↔
      e = e2 := by
  constructor
  · intro h
    have h2 := congrArg String.data h
    rw [string_data_append, string_data_append] at h2
    have h3 := List.append_cancel_left h2
    cases e with
    | mk ed => cases e2 with
      | mk ed2 => exact congrArg String.mk h3
  · rintro rfl
    rfl

theorem box_score_obj_some (oracle : ℕ → Upstream) (kv : List (String × String))
    (fbi : String) (hf : kv.lookup "future_box_info" = some fbi) :
    box_score oracle (JsonBody.obj kv) =
      match predict_box_score oracle
          ((kv.lookup "historical_data").getD "No historical data provided") fbi with
      | Except.ok score => ⟨200, [("predicted_box_score", score)]⟩
      | Except.error e => ⟨500, [("error", e)]⟩ := by
  have hne : kv ≠ [] := by
    rintro rfl
    simp [List.lookup] at hf
  simp only [box_score]
  rw [if_neg hne, hf]

theorem bi_analysis_obj_some (u : Upstream) (kv : List (String × String))
    (q : String) (hq : kv.lookup "query" = some q) :
    bi_analysis u (JsonBody.obj kv) =
      match analyze_bi u
          ((kv.lookup "data_context").getD "No data context provided") q with
      | Except.ok analysis => ⟨200, [("analysis", analysis)]⟩
      | Except.error e => ⟨500, [("error", e)]⟩ := by
  have hne : kv ≠ [] := by
    rintro rfl
    simp [List.lookup] at hq
  simp only [bi_analysis]
  rw [if_neg hne, hq]

/-- C1: the claim says a `POST /analyze_bi` body with a `query` and no
`data_context` succeeds with 200 and an analysis.  The code cannot do this:
the f-string at app.py:115 contains the broken replacement field (meant as a
literal JSON example), so building the prompt raises `ValueError` on every
call and the endpoint answers 500 with the wrapped message.  Evaluated here at
the failing input of the spec (section 8), with a benign upstream. -/
theorem bi_analysis_query_only_returns_500 :
    bi_analysis (Upstream.text "Intake in Denmark rose on ad spend.")
        (JsonBody.obj [("query", "What drove Q2 intake in Denmark?")]) =
      ⟨500, [("error", "Error in BI analysis: " ++ biFstringError)]⟩ ∧
    (bi_analysis (Upstream.text "Intake in Denmark rose on ad spend.")
        (JsonBody.obj [("query", "What drove Q2 intake in Denmark?")])).status ≠ 200 := by
  exact ⟨by decide, by decide⟩

/-- C4 counterexample: the error raised inside `call_grok3` has message
`Error calling Grok 3: connection refused`, but the 500 error field the HTTP
layer returns is that message wrapped by `predict_box_score`, so the message
does not reach the HTTP layer unchanged. -/
theorem call_grok3_error_message_not_preserved :
    call_grok3 (Upstream.transportError "connection refused") =
      Except.error ("Error calling Grok 3: connection refused") ∧
    box_score (fun _ => Upstream.transportError "connection refused")
        (JsonBody.obj [("future_box_info", "Box X")]) =
      ⟨500, [("error",
        "Error in box score simulation: Error calling Grok 3: connection refused")]⟩ ∧
    ("Error in box score simulation: Error calling Grok 3: connection refused" ≠
      "Error calling Grok 3: connection refused") := by
  exact ⟨by decide, by decide, by decide⟩

/-- C4 (amended): the HTTP layer surfaces the message of the error that leaves
the core function it calls, verbatim, as the 500 error field; but an error
raised inside `call_grok3` reaches the HTTP layer wrapped with the calling
core function prefix (`Error in box score simulation: ` here), not unchanged. -/
theorem endpoints_surface_core_errors (oracle : ℕ → Upstream) (u : Upstream)
    (kv : List (String × String)) :
    (∀ fbi m, kv.lookup "future_box_info" = some fbi →
      predict_box_score oracle
          ((kv.lookup "historical_data").getD "No historical data provided") fbi =
        Except.error m →
      box_score oracle (JsonBody.obj kv) = ⟨500, [("error", m)]⟩) ∧
    (∀ q m, kv.lookup "query" = some q →
      analyze_bi u ((kv.lookup "data_context").getD "No data context provided") q =
        Except.error m →
      bi_analysis u (JsonBody.obj kv) = ⟨500, [("error", m)]⟩) ∧
    (∀ hd fbi d, oracle 0 = Upstream.transportError d →
      predict_box_score oracle hd fbi =
        Except.error ("Error in box score simulation: " ++ ("Error calling Grok 3: " ++ d))) := by
  refine ⟨?_, ?_, ?_⟩
  · intro fbi m hf hp
    rw [box_score_obj_some oracle kv fbi hf, hp]
  · intro q m hq ha
    rw [bi_analysis_obj_some u kv q hq, ha]
  · intro hd fbi d h0
    unfold predict_box_score predictRun upstreamCalls
    rw [scoreLoop]
    simp only [h0, call_grok3]

/-- C4 amended witness. -/
theorem endpoints_surface_core_errors_witness :
    [("future_box_info", "Box X")].lookup "future_box_info" = some "Box X" ∧
    predict_box_score (fun _ => Upstream.transportError "boom")
        (([("future_box_info", "Box X")].lookup "historical_data").getD
          "No historical data provided") "Box X" =
      Except.error ("Error in box score simulation: Error calling Grok 3: boom") ∧
    box_score (fun _ => Upstream.transportError "boom")
        (JsonBody.obj [("future_box_info", "Box X")]) =
      ⟨500, [("error", "Error in box score simulation: Error calling Grok 3: boom")]⟩ :=
  ⟨by decide, by decide,
    (endpoints_surface_core_errors (fun _ => Upstream.transportError "boom")
      (Upstream.text "x") [("future_box_info", "Box X")]).1 "Box X"
      "Error in box score simulation: Error calling Grok 3: boom" (by decide) (by decide)⟩

/-- C5: if the upstream text cleans to the empty string, `call_grok3` fails
with the empty-response error (so no text is ever handed to numeric parsing),
and inside the averaging loop such a call aborts the run with that same error:
no score sample is collected from it. -/
theorem call_grok3_empty_cleaned (t : String) (h : cleanResponse t = "") :
    call_grok3 (Upstream.text t) =
      Except.error ("Error calling Grok 3: Grok 3 returned an empty response") ∧
    (∀ s, call_grok3 (Upstream.text t) ≠ Except.ok s) ∧
    (∀ p rest sc, (scoreLoop p (Upstream.text t :: rest) sc).result =
      Except.error ("Error calling Grok 3: Grok 3 returned an empty response")) := by
  have h1 : call_grok3 (Upstream.text t) =
      Except.error ("Error calling Grok 3: Grok 3 returned an empty response") := by
    simp only [call_grok3, h]
    rfl
  refine ⟨h1, ?_, ?_⟩
  · intro s hc
    rw [h1] at hc
    exact Except.noConfusion hc
  · intro p rest sc
    rw [scoreLoop]
    simp only [h1]

/-- C5 witness. -/
theorem call_grok3_empty_cleaned_witness :
    cleanResponse "  <|separator|> chatter" = "" ∧
    call_grok3 (Upstream.text "  <|separator|> chatter") =
      Except.error ("Error calling Grok 3: Grok 3 returned an empty response") ∧
    (scoreLoop "p" [Upstream.text "  <|separator|> chatter"] []).result =
      Except.error ("Error calling Grok 3: Grok 3 returned an empty response") :=
  ⟨by decide, (call_grok3_empty_cleaned _ (by decide)).1,
    (call_grok3_empty_cleaned _ (by decide)).2.2 "p" [] []⟩

/-- C7: a null body, the empty object, and any object without
`future_box_info` answer 400 with the missing-info error for every oracle (in
particular no estimation is performed: the response does not depend on the
oracle); when the key is present and the estimator succeeds, the endpoint
answers 200 with the predicted score. -/
theorem box_score_endpoint_contract (oracle : ℕ → Upstream) :
    box_score oracle JsonBody.null = ⟨400, [("error", "Missing future box info")]⟩ ∧
    box_score oracle (JsonBody.obj []) = ⟨400, [("error", "Missing future box info")]⟩ ∧
    (∀ kv, kv.lookup "future_box_info" = none →
      box_score oracle (JsonBody.obj kv) = ⟨400, [("error", "Missing future box info")]⟩) ∧
    (∀ kv fbi score, kv.lookup "future_box_info" = some fbi →
      predict_box_score oracle
          ((kv.lookup "historical_data").getD "No historical data provided") fbi =
        Except.ok score →
      box_score oracle (JsonBody.obj kv) = ⟨200, [("predicted_box_score", score)]⟩) := by
  refine ⟨rfl, rfl, ?_, ?_⟩
  · intro kv hnone
    simp only [box_score]
    by_cases hkv : kv = []
    · rw [if_pos hkv]
    · rw [if_neg hkv, hnone]
  · intro kv fbi score hf hp
    rw [box_score_obj_some oracle kv fbi hf, hp]

/-- C7 witness. -/
theorem box_score_endpoint_contract_witness :
    box_score (fun _ => Upstream.text "4.20") JsonBody.null =
      ⟨400, [("error", "Missing future box info")]⟩ ∧
    box_score (fun _ => Upstream.text "4.20") (JsonBody.obj [("other", "x")]) =
      ⟨400, [("error", "Missing future box info")]⟩ ∧
    box_score (fun _ => Upstream.text "4.20") (JsonBody.obj [("future_box_info", "B")]) =
      ⟨200, [("predicted_box_score", "4.20")]⟩ :=
  ⟨(box_score_endpoint_contract (fun _ => Upstream.text "4.20")).1,
    (box_score_endpoint_contract (fun _ => Upstream.text "4.20")).2.2.1 [("other", "x")] (by decide),
    (box_score_endpoint_contract (fun _ => Upstream.text "4.20")).2.2.2 [("future_box_info", "B")]
      "B" "4.20" (by decide) (by decide)⟩

/-- C9: when the body has `future_box_info` but no `historical_data`, the
estimator is invoked with the literal placeholder `No historical data
provided` as the historical data, and the request is otherwise processed
normally (200 with the score on success, 500 with the message on failure). -/
theorem box_score_default_historical (oracle : ℕ → Upstream)
    (kv : List (String × String)) (fbi : String)
    (hh : kv.lookup "historical_data" = none)
    (hf : kv.lookup "future_box_info" = some fbi) :
    box_score oracle (JsonBody.obj kv) =
      match predict_box_score oracle "No historical data provided" fbi with
      | Except.ok score => ⟨200, [("predicted_box_score", score)]⟩
      | Except.error e => ⟨500, [("error", e)]⟩ := by
  rw [box_score_obj_some oracle kv fbi hf, hh]
  rfl

/-- C9 witness. -/
theorem box_score_default_historical_witness :
    [("future_box_info", "B")].lookup "historical_data" = none ∧
    box_score (fun _ => Upstream.text "4.20") (JsonBody.obj [("future_box_info", "B")]) =
      match predict_box_score (fun _ => Upstream.text "4.20")
          "No historical data provided" "B" with
      | Except.ok score => ⟨200, [("predicted_box_score", score)]⟩
      | Except.error e => ⟨500, [("error", e)]⟩ :=
  ⟨by decide,
    box_score_default_historical (fun _ => Upstream.text "4.20") [("future_box_info", "B")]
      "B" (by decide) (by decide)⟩

theorem leF_one_iff {f : Frac} (hd : 0 < f.den) : Frac.leF ⟨1, 1⟩ f ↔ 1 ≤ f.val := by
  rw [Frac.leF_iff ⟨1, 1⟩ f (by norm_num) hd]
  norm_num [Frac.val]

theorem leF_five_iff {f : Frac} (hd : 0 < f.den) : Frac.leF f ⟨5, 1⟩ ↔ f.val ≤ 5 := by
  rw [Frac.leF_iff f ⟨5, 1⟩ hd (by norm_num)]
  norm_num [Frac.val]

theorem sampleOk_none_of_bad {t : String}
    (h : pyFloatParse t = none ∨
      ∀ g, pyFloatParse t = some (PyFloat.finite g) → ¬(1 ≤ g.val ∧ g.val ≤ 5)) :
    sampleOk t = none := by
  cases hp : pyFloatParse t with
  | none => simp only [sampleOk, hp]
  | some pf =>
    cases pf with
    | finite g =>
      rcases h with h | h
      · rw [h] at hp
        exact absurd hp (by simp)
      · have hr := h g hp
        have hd := pyFloatParse_den_pos hp
        simp only [sampleOk, hp]
        rw [if_neg]
        rintro ⟨ha, hb⟩
        exact hr ⟨(leF_one_iff hd).mp ha, (leF_five_iff hd).mp hb⟩
    | inf => simp only [sampleOk, hp]
    | ninf => simp only [sampleOk, hp]
    | nan => simp only [sampleOk, hp]

theorem scoreLoop_five_ok (p : String) (oracle : ℕ → Upstream)
    (s : ℕ → String) (f : ℕ → Frac)
    (hcall : ∀ i < 5, call_grok3 (oracle i) = Except.ok (s i))
    (hsample : ∀ i < 5, sampleOk (s i) = some (f i)) :
    scoreLoop p (upstreamCalls oracle) [] =
      ⟨List.replicate 5 (grokPayload p 50 0), Except.ok [f 0, f 1, f 2, f 3, f 4]⟩ := by
  have hc0 := hcall 0 (by norm_num)
  have hc1 := hcall 1 (by norm_num)
  have hc2 := hcall 2 (by norm_num)
  have hc3 := hcall 3 (by norm_num)
  have hc4 := hcall 4 (by norm_num)
  have hs0 := hsample 0 (by norm_num)
  have hs1 := hsample 1 (by norm_num)
  have hs2 := hsample 2 (by norm_num)
  have hs3 := hsample 3 (by norm_num)
  have hs4 := hsample 4 (by norm_num)
  simp only [upstreamCalls, scoreLoop, hc0, hc1, hc2, hc3, hc4, hs0, hs1, hs2, hs3, hs4,
    List.nil_append, List.singleton_append, List.cons_append, List.append_nil]
  rfl

theorem scoreLoop_prefix_abort (p : String) (good : List Upstream) (u : Upstream)
    (rest : List Upstream) (t : String)
    (hgood : ∀ v ∈ good, ∃ tv fv, call_grok3 v = Except.ok tv ∧ sampleOk tv = some fv)
    (hcall : call_grok3 u = Except.ok t) (hbad : sampleOk t = none) :
    ∀ sc, (scoreLoop p (good ++ u :: rest) sc).result =
        Except.error ("Invalid score format: " ++ t) ∧
      (scoreLoop p (good ++ u :: rest) sc).requests.length = good.length + 1 := by
  induction good with
  | nil =>
    intro sc
    rw [List.nil_append, scoreLoop]
    simp [hcall, hbad]
  | cons v vs ih =>
    intro sc
    obtain ⟨tv, fv, hcv, hsv⟩ := hgood v (List.mem_cons_self v vs)
    rw [List.cons_append, scoreLoop]
    simp only [hcv, hsv]
    have h := ih (fun w hw => hgood w (List.mem_cons_of_mem v hw)) (sc ++ [fv])
    refine ⟨h.1, ?_⟩
    simp only [List.length_cons, h.2, List.length_cons]

theorem mean_bounds (l : List ℚ) (hne : l ≠ [])
    (h1 : ∀ x ∈ l, 1 ≤ x) (h5 : ∀ x ∈ l, x ≤ 5) :
    1 ≤ l.sum / (l.length : ℚ) ∧ l.sum / (l.length : ℚ) ≤ 5 := by
  have hlen : 0 < l.length := List.length_pos.mpr hne
  have hlenQ : (0 : ℚ) < (l.length : ℚ) := by exact_mod_cast hlen
  have hs1 : (l.length : ℚ) * 1 ≤ l.sum := by
    have h := List.card_nsmul_le_sum l 1 h1
    simpa [nsmul_eq_mul] using h
  have hs5 : l.sum ≤ (l.length : ℚ) * 5 := by
    have h := List.sum_le_card_nsmul l 5 h5
    simpa [nsmul_eq_mul] using h
  constructor
  · rw [le_div_iff₀ hlenQ]
    linarith
  · rw [div_le_iff₀ hlenQ]
    linarith

theorem roundHalfEven_bounds {q : ℚ} (h1 : 100 ≤ q) (h2 : q ≤ 500) :
    100 ≤ roundHalfEven q ∧ roundHalfEven q ≤ 500 := by
  have hfl1 : (100 : ℤ) ≤ ⌊q⌋ := Int.le_floor.mpr (by exact_mod_cast h1)
  have hfl2 : ⌊q⌋ ≤ 500 := by
    have h := Int.floor_le_floor h2
    simpa using h
  have hfl499 : ¬(q - (⌊q⌋ : ℚ) < 1 / 2) → ⌊q⌋ ≤ 499 := by
    intro hA
    by_contra hc
    push_neg at hc
    have h500 : (500 : ℚ) ≤ (⌊q⌋ : ℚ) := by exact_mod_cast hc
    have hge := le_of_not_lt hA
    linarith
  simp only [roundHalfEven]
  split
  · exact ⟨hfl1, hfl2⟩
  · rename_i hA
    have h499 := hfl499 hA
    split
    · constructor <;> omega
    · split
      · exact ⟨hfl1, hfl2⟩
      · constructor <;> omega

/-- C2: when each of the five upstream texts parses as a number whose value
lies in [1, 5], `predict_box_score` returns exactly the unweighted arithmetic
mean of the five values formatted with two decimal digits (ties rounded to
even, matching the exact-arithmetic reading of the spec). -/
theorem predict_box_score_is_rounded_mean
    (oracle : ℕ → Upstream) (hd fbi : String) (s : ℕ → String) (f : ℕ → Frac)
    (hcall : ∀ i < 5, call_grok3 (oracle i) = Except.ok (s i))
    (hparse : ∀ i < 5, pyFloatParse (s i) = some (PyFloat.finite (f i)))
    (hlo : ∀ i < 5, 1 ≤ (f i).val) (hhi : ∀ i < 5, (f i).val ≤ 5) :
    predict_box_score oracle hd fbi =
      Except.ok (ratFormat2
        (((f 0).val + (f 1).val + (f 2).val + (f 3).val + (f 4).val) / 5)) := by
  have hsample : ∀ i < 5, sampleOk (s i) = some (f i) := fun i hi =>
    sampleOk_of_val (hparse i hi) (hlo i hi) (hhi i hi)
  have hrun := scoreLoop_five_ok (boxPrompt hd fbi) oracle s f hcall hsample
  have hdens : ∀ g ∈ [f 0, f 1, f 2, f 3, f 4], 0 < g.den := by
    intro g hg
    simp only [List.mem_cons, List.not_mem_nil, or_false] at hg
    rcases hg with rfl | rfl | rfl | rfl | rfl
    · exact sampleOk_den_pos (hsample 0 (by norm_num))
    · exact sampleOk_den_pos (hsample 1 (by norm_num))
    · exact sampleOk_den_pos (hsample 2 (by norm_num))
    · exact sampleOk_den_pos (hsample 3 (by norm_num))
    · exact sampleOk_den_pos (hsample 4 (by norm_num))
  unfold predict_box_score predictRun
  rw [hrun]
  simp only [List.isEmpty_cons, List.length_cons, List.length_nil]
  have hdivden : 0 < ((fracSum [f 0, f 1, f 2, f 3, f 4]).divN (0 + 1 + 1 + 1 + 1 + 1)).den :=
    Nat.mul_pos (fracSum_den_pos _ hdens) (by norm_num)
  rw [formatScore_eq_ratFormat2 _ hdivden]
  rw [Frac.divN_val, fracSum_val _ hdens]
  simp only [List.map_cons, List.map_nil, List.sum_cons, List.sum_nil]
  norm_num
  ring_nf

/-- C2 witness data: upstream texts 4.1, 4.2, 4.0, 4.3, 4.4 and their parsed
fractions. -/
def wTexts : ℕ → String := fun i => ["4.1", "4.2", "4.0", "4.3", "4.4"].getD i ""

/-- The fractions the witness texts parse to. -/
def wFracs : ℕ → Frac :=
  fun i => [⟨41, 10⟩, ⟨42, 10⟩, ⟨40, 10⟩, ⟨43, 10⟩, ⟨44, 10⟩].getD i ⟨0, 1⟩

/-- A benign oracle answering the witness texts. -/
def wOracle : ℕ → Upstream := fun i => Upstream.text (wTexts i)

/-- C2 witness: at the spec example `[4.1, 4.2, 4.0, 4.3, 4.4]` the theorem
applies and the resulting string is `4.20`. -/
theorem predict_box_score_is_rounded_mean_witness :
    (∀ i < 5, call_grok3 (wOracle i) = Except.ok (wTexts i)) ∧
    (∀ i < 5, pyFloatParse (wTexts i) = some (PyFloat.finite (wFracs i))) ∧
    predict_box_score wOracle "hist" "box" =
      Except.ok (ratFormat2
        (((wFracs 0).val + (wFracs 1).val + (wFracs 2).val + (wFracs 3).val +
          (wFracs 4).val) / 5)) ∧
    ratFormat2
        (((wFracs 0).val + (wFracs 1).val + (wFracs 2).val + (wFracs 3).val +
          (wFracs 4).val) / 5) = "4.20" := by
  have hmean : ((wFracs 0).val + (wFracs 1).val + (wFracs 2).val + (wFracs 3).val +
      (wFracs 4).val) / 5 = (Frac.mk 21 5).val := by
    norm_num [wFracs, Frac.val]
  refine ⟨by decide, by decide, ?_, ?_⟩
  · exact predict_box_score_is_rounded_mean wOracle "hist" "box" wTexts wFracs
      (by decide) (by decide)
      (by intro i hi; interval_cases i <;> norm_num [wFracs, Frac.val])
      (by intro i hi; interval_cases i <;> norm_num [wFracs, Frac.val])
  · rw [hmean, ← formatScore_eq_ratFormat2 _ (by norm_num)]
    decide

/-- C6: on a run in which all five samples are valid, the estimator issues
exactly five completion calls, in order (the request list records them in call
order, consuming the oracle at indices 0 through 4 sequentially), every call
carrying temperature 0, a 50-token budget, seed 42 and model grok-3 with the
box prompt, and collects exactly one sample per call. -/
theorem predict_box_score_five_calls
    (oracle : ℕ → Upstream) (hd fbi : String) (s : ℕ → String) (f : ℕ → Frac)
    (hcall : ∀ i < 5, call_grok3 (oracle i) = Except.ok (s i))
    (hsample : ∀ i < 5, sampleOk (s i) = some (f i)) :
    (predictRun oracle hd fbi).requests =
      List.replicate 5
        { model := "grok-3", prompt := boxPrompt hd fbi, temperature := 0,
          max_tokens := 50, seed := 42 } ∧
    (predictRun oracle hd fbi).result = Except.ok [f 0, f 1, f 2, f 3, f 4] := by
  have hrun := scoreLoop_five_ok (boxPrompt hd fbi) oracle s f hcall hsample
  unfold predictRun
  rw [hrun]
  exact ⟨rfl, rfl⟩

/-- C6 witness. -/
theorem predict_box_score_five_calls_witness :
    (∀ i < 5, call_grok3 (wOracle i) = Except.ok (wTexts i)) ∧
    (∀ i < 5, sampleOk (wTexts i) = some (wFracs i)) ∧
    (predictRun wOracle "hist" "box").requests =
      List.replicate 5
        { model := "grok-3", prompt := boxPrompt "hist" "box", temperature := 0,
          max_tokens := 50, seed := 42 } ∧
    (predictRun wOracle "hist" "box").result =
      Except.ok [wFracs 0, wFracs 1, wFracs 2, wFracs 3, wFracs 4] :=
  ⟨by decide, by decide,
    (predict_box_score_five_calls wOracle "hist" "box" wTexts wFracs
      (by decide) (by decide)).1,
    (predict_box_score_five_calls wOracle "hist" "box" wTexts wFracs
      (by decide) (by decide)).2⟩

/-- C3: if the first k samples are valid and the (k+1)-st upstream text is not
parseable as a number or parses to a value outside [1, 5], the whole estimate
fails with the invalid-score-format error naming that text, nothing is
averaged, and exactly k+1 requests were issued: the failed call is not
retried and the remaining calls never happen. -/
theorem predict_box_score_aborts_on_first_invalid
    (oracle : ℕ → Upstream) (hd fbi : String) (k : ℕ) (hk : k < 5)
    (s : ℕ → String) (f : ℕ → Frac)
    (hcall : ∀ i ≤ k, call_grok3 (oracle i) = Except.ok (s i))
    (hvalid : ∀ i < k, sampleOk (s i) = some (f i))
    (hbad : pyFloatParse (s k) = none ∨
      ∀ g, pyFloatParse (s k) = some (PyFloat.finite g) → ¬(1 ≤ g.val ∧ g.val ≤ 5)) :
    predict_box_score oracle hd fbi =
      Except.error ("Error in box score simulation: " ++ ("Invalid score format: " ++ s k)) ∧
    (predictRun oracle hd fbi).requests.length = k + 1 := by
  have hbad' : sampleOk (s k) = none := sampleOk_none_of_bad hbad
  have habort : ∀ good rest, good ++ oracle k :: rest = upstreamCalls oracle →
      (∀ v ∈ good, ∃ tv fv, call_grok3 v = Except.ok tv ∧ sampleOk tv = some fv) →
      good.length = k →
      predict_box_score oracle hd fbi =
        Except.error ("Error in box score simulation: " ++ ("Invalid score format: " ++ s k)) ∧
      (predictRun oracle hd fbi).requests.length = k + 1 := by
    intro good rest hsplit hgood hlen
    have h := scoreLoop_prefix_abort (boxPrompt hd fbi) good (oracle k) rest (s k)
      hgood (hcall k (le_refl k)) hbad' []
    rw [hsplit] at h
    constructor
    · unfold predict_box_score predictRun
      rw [h.1]
    · unfold predictRun
      rw [h.2, hlen]
  interval_cases k
  · exact habort [] [oracle 1, oracle 2, oracle 3, oracle 4] rfl (by simp) rfl
  · refine habort [oracle 0] [oracle 2, oracle 3, oracle 4] rfl ?_ rfl
    intro v hv
    simp only [List.mem_singleton] at hv
    subst hv
    exact ⟨s 0, f 0, hcall 0 (by norm_num), hvalid 0 (by norm_num)⟩
  · refine habort [oracle 0, oracle 1] [oracle 3, oracle 4] rfl ?_ rfl
    intro v hv
    simp only [List.mem_cons, List.not_mem_nil, or_false] at hv
    rcases hv with rfl | rfl
    · exact ⟨s 0, f 0, hcall 0 (by norm_num), hvalid 0 (by norm_num)⟩
    · exact ⟨s 1, f 1, hcall 1 (by norm_num), hvalid 1 (by norm_num)⟩
  · refine habort [oracle 0, oracle 1, oracle 2] [oracle 4] rfl ?_ rfl
    intro v hv
    simp only [List.mem_cons, List.not_mem_nil, or_false] at hv
    rcases hv with rfl | rfl | rfl
    · exact ⟨s 0, f 0, hcall 0 (by norm_num), hvalid 0 (by norm_num)⟩
    · exact ⟨s 1, f 1, hcall 1 (by norm_num), hvalid 1 (by norm_num)⟩
    · exact ⟨s 2, f 2, hcall 2 (by norm_num), hvalid 2 (by norm_num)⟩
  · refine habort [oracle 0, oracle 1, oracle 2, oracle 3] [] rfl ?_ rfl
    intro v hv
    simp only [List.mem_cons, List.not_mem_nil, or_false] at hv
    rcases hv with rfl | rfl | rfl | rfl
    · exact ⟨s 0, f 0, hcall 0 (by norm_num), hvalid 0 (by norm_num)⟩
    · exact ⟨s 1, f 1, hcall 1 (by norm_num), hvalid 1 (by norm_num)⟩
    · exact ⟨s 2, f 2, hcall 2 (by norm_num), hvalid 2 (by norm_num)⟩
    · exact ⟨s 3, f 3, hcall 3 (by norm_num), hvalid 3 (by norm_num)⟩

/-- An oracle whose third answer is the non-numeric text `N/A`. -/
def wBadOracle : ℕ → Upstream :=
  fun i => Upstream.text (["4.1", "4.2", "N/A", "4.3", "4.4"].getD i "")

/-- C3 witness: with valid samples 4.1, 4.2 and then `N/A`, the estimate
aborts after the third call. -/
theorem predict_box_score_aborts_on_first_invalid_witness :
    pyFloatParse "N/A" = none ∧
    predict_box_score wBadOracle "hist" "box" =
      Except.error ("Error in box score simulation: " ++ ("Invalid score format: " ++ "N/A")) ∧
    (predictRun wBadOracle "hist" "box").requests.length = 2 + 1 := by
  have h := predict_box_score_aborts_on_first_invalid wBadOracle "hist" "box" 2 (by norm_num)
    (fun i => ["4.1", "4.2", "N/A", "4.3", "4.4"].getD i "")
    (fun i => [Frac.mk 41 10, Frac.mk 42 10].getD i ⟨0, 1⟩)
    (by decide) (by decide) (Or.inl (by decide))
  exact ⟨by decide, h.1, h.2⟩

/-- C8: the defensive `not scores` branch is unreachable: whenever the loop
finishes without an exception it has collected exactly five samples, and no
run of `predict_box_score` ever produces the `No valid scores collected`
error (abort-on-first-invalid leaves no other way to reach the averaging step
short of five samples). -/
theorem no_valid_scores_error_unreachable (oracle : ℕ → Upstream) (hd fbi : String) :
    (∀ l, (predictRun oracle hd fbi).result = Except.ok l → l.length = 5) ∧
    predict_box_score oracle hd fbi ≠
      Except.error ("Error in box score simulation: No valid scores collected") := by
  constructor
  · intro l h
    have h2 := scoreLoop_ok_length (boxPrompt hd fbi) (upstreamCalls oracle) [] l h
    simpa [upstreamCalls] using h2
  · intro hc
    unfold predict_box_score at hc
    cases hres : (predictRun oracle hd fbi).result with
    | ok l =>
      simp only [hres] at hc
      have hlen : l.length = 5 := by
        have h2 := scoreLoop_ok_length (boxPrompt hd fbi) (upstreamCalls oracle) [] l hres
        simpa [upstreamCalls] using h2
      have hne : l ≠ [] := by
        intro h0
        rw [h0] at hlen
        simp at hlen
      rw [if_neg (by simpa [List.isEmpty_iff] using hne)] at hc
      exact Except.noConfusion hc
    | error e =>
      simp only [hres] at hc
      injection hc with hc
      rw [show ("Error in box score simulation: No valid scores collected") =
        "Error in box score simulation: " ++ "No valid scores collected" from by decide,
        wrapped_msg_inj] at hc
      rcases scoreLoop_error_shape _ _ _ _ hres with ⟨d, rfl⟩ | ⟨t, rfl⟩
      · exact grokPrefix_append_ne d hc
      · exact invalidPrefix_append_ne t hc

/-- C8 witness. -/
theorem no_valid_scores_error_unreachable_witness :
    (predictRun wOracle "hist" "box").result =
      Except.ok [⟨41, 10⟩, ⟨42, 10⟩, ⟨40, 10⟩, ⟨43, 10⟩, ⟨44, 10⟩] ∧
    ([⟨41, 10⟩, ⟨42, 10⟩, ⟨40, 10⟩, ⟨43, 10⟩, ⟨44, 10⟩] : List Frac).length = 5 ∧
    predict_box_score wOracle "hist" "box" ≠
      Except.error ("Error in box score simulation: No valid scores collected") :=
  ⟨by decide,
    (no_valid_scores_error_unreachable wOracle "hist" "box").1 _ (by decide),
    (no_valid_scores_error_unreachable wOracle "hist" "box").2⟩

/-- C10: whenever the estimator succeeds, the returned string is the
two-decimal rendering of a rational mean lying in [1, 5]; concretely it is
`n/100` for an integer n between 100 and 500, rendered with two decimal
digits.  Samples that parse to nan or infinity never enter the mean: the
range check admits only finite values in [1, 5]. -/
theorem predict_box_score_ok_range (oracle : ℕ → Upstream) (hd fbi score : String)
    (h : predict_box_score oracle hd fbi = Except.ok score) :
    ∃ q : ℚ, 1 ≤ q ∧ q ≤ 5 ∧ score = ratFormat2 q ∧
      ∃ n : ℤ, n = roundHalfEven (q * 100) ∧ 100 ≤ n ∧ n ≤ 500 ∧
        score = toString (n.natAbs / 100) ++ "." ++ pad2 (n.natAbs % 100) := by
  unfold predict_box_score at h
  cases hres : (predictRun oracle hd fbi).result with
  | error e =>
    simp only [hres] at h
    exact absurd h (by simp)
  | ok l =>
    simp only [hres] at h
    have hgood := scoreLoop_ok_good (boxPrompt hd fbi) (upstreamCalls oracle) [] l
      (by simp) hres
    have hlen : l.length = 5 := by
      have h2 := scoreLoop_ok_length (boxPrompt hd fbi) (upstreamCalls oracle) [] l hres
      simpa [upstreamCalls] using h2
    have hne : l ≠ [] := by
      intro h0
      rw [h0] at hlen
      simp at hlen
    rw [if_neg (by simpa [List.isEmpty_iff] using hne)] at h
    injection h with h
    have hdens : ∀ g ∈ l, 0 < g.den := fun g hg => (hgood g hg).1
    have hdivden : 0 < ((fracSum l).divN l.length).den := by
      refine Nat.mul_pos (fracSum_den_pos l hdens) ?_
      rw [hlen]
      norm_num
    have hmapne : l.map Frac.val ≠ [] := by
      simpa using hne
    have hmean := mean_bounds (l.map Frac.val) hmapne
      (by
        intro x hx
        obtain ⟨g, hg, rfl⟩ := List.mem_map.mp hx
        exact (hgood g hg).2.1)
      (by
        intro x hx
        obtain ⟨g, hg, rfl⟩ := List.mem_map.mp hx
        exact (hgood g hg).2.2)
    rw [List.length_map] at hmean
    have hval : ((fracSum l).divN l.length).val = (l.map Frac.val).sum / (l.length : ℚ) := by
      rw [Frac.divN_val, fracSum_val l hdens]
    refine ⟨((fracSum l).divN l.length).val, ?_, ?_, ?_, ?_⟩
    · rw [hval]
      exact hmean.1
    · rw [hval]
      exact hmean.2
    · rw [← h, formatScore_eq_ratFormat2 _ hdivden]
    · have hq1 : 1 ≤ ((fracSum l).divN l.length).val := by
        rw [hval]
        exact hmean.1
      have hq5 : ((fracSum l).divN l.length).val ≤ 5 := by
        rw [hval]
        exact hmean.2
      have hb := roundHalfEven_bounds
        (by linarith : (100 : ℚ) ≤ ((fracSum l).divN l.length).val * 100)
        (by linarith : ((fracSum l).divN l.length).val * 100 ≤ 500)
      refine ⟨roundHalfEven (((fracSum l).divN l.length).val * 100), rfl, hb.1, hb.2, ?_⟩
      rw [← h, formatScore_eq_ratFormat2 _ hdivden]
      simp only [ratFormat2]
      rw [if_neg (by omega)]

/-- C10 witness. -/
theorem predict_box_score_ok_range_witness :
    predict_box_score wOracle "hist" "box" = Except.ok "4.20" ∧
    (∃ q : ℚ, 1 ≤ q ∧ q ≤ 5 ∧ "4.20" = ratFormat2 q ∧
      ∃ n : ℤ, n = roundHalfEven (q * 100) ∧ 100 ≤ n ∧ n ≤ 500 ∧
        "4.20" = toString (n.natAbs / 100) ++ "." ++ pad2 (n.natAbs % 100)) :=
  ⟨by decide, predict_box_score_ok_range wOracle "hist" "box" "4.20" (by decide)⟩

end GrokBI
